import Mathlib

/-!
Verification of the value-formatting and SQL-statement-assembly layer of
`src/backend/main.py`, a small table-administration HTTP service.  The Python
functions `format_value`, `create_table`, `insert_row` and `update_row` are
embedded as executable Lean definitions over a `PyVal` model of the JSON
request values, and the behavioural claims about them are settled below.
-/

namespace DBApp

/-- A Python value as it arrives in a JSON request body (`Dict[str, Any]`):
`None`, booleans, integers, strings, lists and string-keyed dicts. -/
inductive PyVal where
  | none
  | bool (b : Bool)
  | int (n : Int)
  | str (s : String)
  | list (items : List PyVal)
  | dict (entries : List (String × PyVal))

/-- Lower-case hexadecimal digit characters, as used by the `\uXXXX` escapes
of `json.dumps`. -/
def hexDigitChar (n : Nat) : Char :=
  if n < 10 then Char.ofNat (48 + n) else Char.ofNat (87 + n)

/-- Four lower-case hex digits of `n % 65536`, most significant first. -/
def toHex4 (n : Nat) : List Char :=
  [hexDigitChar (n / 4096 % 16), hexDigitChar (n / 256 % 16),
   hexDigitChar (n / 16 % 16), hexDigitChar (n % 16)]

/-- Models the per-character escaping of CPython `json.dumps` with its default
`ensure_ascii=True`: double quote and backslash get a backslash escape, the
control characters with short names get those, every other character in the
printable ASCII range `0x20`..`0x7e` stands for itself, and everything else
becomes `\uXXXX` (a surrogate pair for code points above `0xffff`). -/
def jsonEscapeChar (c : Char) : List Char :=
  if c = '"' then ['\\', '"']
  else if c = '\\' then ['\\', '\\']
  else if c = '\n' then ['\\', 'n']
  else if c = '\t' then ['\\', 't']
  else if c = '\r' then ['\\', 'r']
  else if c = '\x08' then ['\\', 'b']
  else if c = '\x0c' then ['\\', 'f']
  else if 0x20 ≤ c.toNat ∧ c.toNat ≤ 0x7e then [c]
  else if c.toNat ≤ 0xffff then '\\' :: 'u' :: toHex4 c.toNat
  else
    '\\' :: 'u' :: toHex4 (0xd800 + (c.toNat - 0x10000) / 0x400) ++
      '\\' :: 'u' :: toHex4 (0xdc00 + (c.toNat - 0x10000) % 0x400)

/-- `json.dumps` rendering of a Python string: the escaped character sequence
wrapped in double quotes. -/
def jsonEscapeString (s : String) : List Char :=
  '"' :: ((s.data.map jsonEscapeChar).flatten ++ ['"'])

mutual

/-- Models CPython `json.dumps` with default arguments on the `PyVal`
fragment: `null`/`true`/`false` keywords, decimal integers, double-quoted
escaped strings, and bracketed sequences with separators `, ` and `: `. -/
def jsonDumpsL : PyVal → List Char
  | PyVal.none => ['n', 'u', 'l', 'l']
  | PyVal.bool true => ['t', 'r', 'u', 'e']
  | PyVal.bool false => ['f', 'a', 'l', 's', 'e']
  | PyVal.int n => (toString n).data
  | PyVal.str s => jsonEscapeString s
  | PyVal.list items => '[' :: (jsonItemsL items ++ [']'])
  | PyVal.dict entries => '{' :: (jsonEntriesL entries ++ ['}'])

/-- Array items joined with the default item separator `, `. -/
def jsonItemsL : List PyVal → List Char
  | [] => []
  | [v] => jsonDumpsL v
  | v :: rest => jsonDumpsL v ++ ',' :: ' ' :: jsonItemsL rest

/-- Object members `"key": value` joined with `, `. -/
def jsonEntriesL : List (String × PyVal) → List Char
  | [] => []
  | [(k, v)] => jsonEscapeString k ++ ':' :: ' ' :: jsonDumpsL v
  | (k, v) :: rest =>
      jsonEscapeString k ++ ':' :: ' ' :: jsonDumpsL v ++ ',' :: ' ' :: jsonEntriesL rest

end

/-- `json.dumps` as a `String`-valued function. -/
def jsonDumps (v : PyVal) : String := ⟨jsonDumpsL v⟩

/-- Models Python's whitespace test used by `str.strip()` on the ASCII range:
space, tab, newline, carriage return, vertical tab and form feed.  (Python
additionally strips a few rare Unicode space characters, which play no role
here.) -/
def pyIsSpace (c : Char) : Bool :=
  c == ' ' || c == '\t' || c == '\n' || c == '\r' || c == '\x0b' || c == '\x0c'

/-- Drop leading and trailing whitespace from a character list. -/
def stripList (l : List Char) : List Char :=
  ((l.dropWhile pyIsSpace).reverse.dropWhile pyIsSpace).reverse

/-- Models Python `str.strip()`. -/
def pyStrip (s : String) : String := ⟨stripList s.data⟩

/-- Models `.replace("'", "''")`: every single-quote character doubled. -/
def escapeQuotesL : List Char → List Char
  | [] => []
  | c :: rest => if c = '\'' then c :: c :: escapeQuotesL rest else c :: escapeQuotesL rest

/-- `.replace("'", "''")` as a `String`-valued function. -/
def escapeQuotes (s : String) : String := ⟨escapeQuotesL s.data⟩

/-- Collapse each doubled single quote of a literal body to one quote; a lone
single quote makes the body invalid. -/
def collapseQuotesL : List Char → Option (List Char)
  | [] => some []
  | c :: rest =>
      if c = '\'' then
        match rest with
        | c2 :: rest2 =>
            if c2 = '\'' then (collapseQuotesL rest2).map fun l => '\'' :: l
            else Option.none
        | [] => Option.none
      else (collapseQuotesL rest).map fun l => c :: l

/-- Decode a single-quoted SQL string literal: require the surrounding single
quotes, drop them, and collapse the doubled quotes of the body. -/
def decodeLiteral (s : String) : Option String :=
  match s.data with
  | '\'' :: body =>
      match body.getLast? with
      | some '\'' => (collapseQuotesL body.dropLast).map fun l => (⟨l⟩ : String)
      | _ => Option.none
  | _ => Option.none

/-- The `%d` day field of CPython `strptime`: the regex alternatives
`3[01]`, `[12]` followed by a digit, `0[1-9]`, `[1-9]`, in that order, each
returning the parsed day value and the remaining input. -/
def parseDay : List Char → List (Nat × List Char)
  | [] => []
  | [c1] => if '1' ≤ c1 ∧ c1 ≤ '9' then [(c1.toNat - 48, [])] else []
  | c1 :: c2 :: rest =>
      (if c1 = '3' ∧ (c2 = '0' ∨ c2 = '1') then [(30 + (c2.toNat - 48), rest)] else []) ++
      (if (c1 = '1' ∨ c1 = '2') ∧ c2.isDigit then
         [((c1.toNat - 48) * 10 + (c2.toNat - 48), rest)] else []) ++
      (if c1 = '0' ∧ '1' ≤ c2 ∧ c2 ≤ '9' then [(c2.toNat - 48, rest)] else []) ++
      (if '1' ≤ c1 ∧ c1 ≤ '9' then [(c1.toNat - 48, c2 :: rest)] else [])

/-- The `%m` month field of CPython `strptime`: the regex alternatives
`1[0-2]`, `0[1-9]`, `[1-9]`, in that order. -/
def parseMonth : List Char → List (Nat × List Char)
  | [] => []
  | [c1] => if '1' ≤ c1 ∧ c1 ≤ '9' then [(c1.toNat - 48, [])] else []
  | c1 :: c2 :: rest =>
      (if c1 = '1' ∧ (c2 = '0' ∨ c2 = '1' ∨ c2 = '2') then
         [(10 + (c2.toNat - 48), rest)] else []) ++
      (if c1 = '0' ∧ '1' ≤ c2 ∧ c2 ≤ '9' then [(c2.toNat - 48, rest)] else []) ++
      (if '1' ≤ c1 ∧ c1 ≤ '9' then [(c1.toNat - 48, c2 :: rest)] else [])

/-- The `%Y` year field of CPython `strptime`: exactly four decimal digits. -/
def parseYear (cs : List Char) : Option (Nat × List Char) :=
  match cs with
  | a :: b :: c :: d :: rest =>
      if a.isDigit ∧ b.isDigit ∧ c.isDigit ∧ d.isDigit then
        some (((a.toNat - 48) * 10 + (b.toNat - 48)) * 100 +
                (c.toNat - 48) * 10 + (d.toNat - 48), rest)
      else Option.none
  | _ => Option.none

/-- The regex match of `%d/%m/%Y` against a prefix of the input, with the
alternation/backtracking order of the generated pattern
`(3[01]|[12]\d|0[1-9]|[1-9])/(1[0-2]|0[1-9]|[1-9])/(\d\d\d\d)`: day, month,
year and the unconsumed remainder. -/
def strptimeCore (cs : List Char) : Option (Nat × Nat × Nat × List Char) :=
  (parseDay cs).findSome? fun dm =>
    match dm.2 with
    | '/' :: r2 =>
        (parseMonth r2).findSome? fun mm =>
          match mm.2 with
          | '/' :: r4 =>
              match parseYear r4 with
              | some (y, r5) => some (dm.1, mm.1, y, r5)
              | Option.none => Option.none
          | _ => Option.none
    | _ => Option.none

/-- Gregorian leap-year rule, as used by `datetime`. -/
def isLeapYear (y : Nat) : Bool :=
  (y % 4 == 0 && y % 100 != 0) || y % 400 == 0

/-- Number of days in a month, as validated by the `datetime` constructor. -/
def daysInMonth (y m : Nat) : Nat :=
  if m = 2 then (if isLeapYear y then 29 else 28)
  else if m = 4 ∨ m = 6 ∨ m = 9 ∨ m = 11 then 30
  else 31

/-- Models `datetime.strptime(s, "%d/%m/%Y")`: the pattern must match a
prefix of `s`, the match must cover the whole string, and the captured
day/month/year must form a valid date with year at least 1 (the `datetime`
constructor rejects day-out-of-range and year 0). -/
def strptimeDMY (s : String) : Option (Nat × Nat × Nat) :=
  match strptimeCore s.data with
  | some (d, m, y, rest) =>
      if rest = [] ∧ 1 ≤ y ∧ d ≤ daysInMonth y m then some (d, m, y) else Option.none
  | Option.none => Option.none

/-- Decimal rendering of `n` left-padded with zeros to width `k`. -/
def padZeros (k : Nat) (n : Nat) : String :=
  let s := toString n
  ⟨List.replicate (k - s.length) '0'⟩ ++ s

/-- Models `dt.strftime('%Y-%m-%d')`: zero-padded year, month and day joined
with hyphens. -/
def strftimeYMD (y m d : Nat) : String :=
  padZeros 4 y ++ "-" ++ padZeros 2 m ++ "-" ++ padZeros 2 d

/-- The test `val is None or val == ''` of `format_value`: in Python `== ''`
holds only for the empty string (no other request value compares equal to
`''`), so exactly `None` and `""` pass. -/
def isNullish : PyVal → Bool
  | PyVal.none => true
  | PyVal.str s => s == ""
  | _ => false

/-- The string `format_value` hands to `.strip()`: dicts and lists are first
replaced by their `json.dumps` text, and `str()` is applied to the rest
(identity on strings, `True`/`False` for booleans, decimal for integers). -/
def pyToText : PyVal → String
  | PyVal.none => "None"
  | PyVal.bool b => if b then "True" else "False"
  | PyVal.int n => toString n
  | PyVal.str s => s
  | PyVal.list items => jsonDumps (PyVal.list items)
  | PyVal.dict entries => jsonDumps (PyVal.dict entries)

/-- The `str_val` of `format_value`: textual form after `.strip()`. -/
def textualForm (v : PyVal) : String := pyStrip (pyToText v)

/-- `format_value` from `src/backend/main.py` lines 76-105: `NULL` for `None`
and `''`; dicts/lists serialized by `json.dumps`; the stripped text run
through the `DD/MM/YYYY` date heuristic when it contains `/` and has length
10; otherwise (or when `strptime` raises `ValueError`) single-quote escaping
and wrapping in single quotes. -/
def format_value (val : PyVal) : String :=
  if isNullish val then "NULL"
  else
    let str_val := textualForm val
    if str_val.data.contains '/' ∧ str_val.length = 10 then
      match strptimeDMY str_val with
      | some (d, m, y) => "'" ++ strftimeYMD y m d ++ "'"
      | Option.none => "'" ++ escapeQuotes str_val ++ "'"
    else "'" ++ escapeQuotes str_val ++ "'"

/-- Substring test modelling Python's `"INT" in s`: some contiguous run of
characters of the haystack equals the needle. -/
def containsSubL (needle : List Char) : List Char → Bool
  | [] => needle.isEmpty
  | c :: rest => needle.isPrefixOf (c :: rest) || containsSubL needle rest

/-- Python `needle in hay` on strings. -/
def pyInStr (needle hay : String) : Bool := containsSubL needle.data hay.data

/-- Python `str.upper()` on the ASCII range: lower-case letters shifted to
upper case, everything else unchanged. -/
def pyCharUpper (c : Char) : Char :=
  if 'a' ≤ c ∧ c ≤ 'z' then Char.ofNat (c.toNat - 32) else c

/-- Python `str.upper()`. -/
def pyUpper (s : String) : String := ⟨s.data.map pyCharUpper⟩

/-- `ForeignKeyDef` request model. -/
structure ForeignKeyDef where
  table : String
  column : String

/-- `ColumnDef` request model (defaults as in the pydantic model). -/
structure ColumnDef where
  name : String
  type : String
  isPrimary : Bool := false
  isForeignKey : Bool := false
  foreignKey : Option ForeignKeyDef := Option.none

/-- `CreateTableRequest` body of `POST /create-table`. -/
structure CreateTableRequest where
  table_name : String
  columns : List ColumnDef

/-- `RowOperationRequest` body of `POST /rows/insert` and `POST /rows/update`:
`data` is the JSON object in request order, `id` the optional row identifier. -/
structure RowOperationRequest where
  table_name : String
  data : List (String × PyVal)
  id : Option Int := Option.none

/-- The per-column definition text built by the loop of `create_table`:
`name type`, replaced by `name SERIAL PRIMARY KEY` when the column is primary
and its upper-cased type contains `INT`, and suffixed with ` PRIMARY KEY` for
the other primary columns. -/
def columnDefText (col : ColumnDef) : String :=
  let def_str := col.name ++ " " ++ col.type
  if col.isPrimary then
    if pyInStr "INT" (pyUpper col.type) then col.name ++ " SERIAL PRIMARY KEY"
    else def_str ++ " PRIMARY KEY"
  else def_str

/-- The SQL text built by `create_table` (lines 144-162): a synthesized
`id SERIAL PRIMARY KEY` column when the request has none, else one definition
per requested column, joined with `, `. -/
def create_table_sql (req : CreateTableRequest) : String :=
  let col_defs :=
    if req.columns.isEmpty then ["id SERIAL PRIMARY KEY"]
    else req.columns.map columnDefText
  "CREATE TABLE " ++ req.table_name ++ " (" ++ String.intercalate ", " col_defs ++ ");"

/-- An HTTP error response: status code and detail message, as raised through
`HTTPException`.  A handler returning `.error` has executed no SQL. -/
abbrev HttpError : Type := Nat × String

/-- `insert_row` (lines 179-193), returning either the 400 error raised before
any SQL is run, or the exact SQL text passed to `execute_raw_sql`.  The filter
`v != '' and v is not None` keeps precisely the non-nullish values. -/
def insert_row (req : RowOperationRequest) : Except HttpError String :=
  let clean_data := req.data.filter fun kv => !(isNullish kv.2)
  if clean_data.isEmpty then Except.error (400, "No data provided")
  else
    let cols := String.intercalate ", " (clean_data.map Prod.fst)
    let vals := String.intercalate ", " (clean_data.map fun kv => format_value kv.2)
    Except.ok ("INSERT INTO " ++ req.table_name ++ " (" ++ cols ++ ") VALUES (" ++ vals ++ ");")

/-- Python truthiness test `not req.id` on the optional row id: true for a
missing id and for id 0. -/
def falsyId : Option Int → Bool
  | Option.none => true
  | some n => n == 0

/-- The f-string rendering of `req.id` inside the `WHERE` clause. -/
def idText : Option Int → String
  | Option.none => "None"
  | some n => toString n

/-- `update_row` (lines 195-208): 400 when `not req.id`; otherwise either the
no-op success pair (no SQL, message `No data to update.`) when every data key
is `id`, or the executed `UPDATE` text with its success message. -/
def update_row (req : RowOperationRequest) : Except HttpError (Option String × String) :=
  if falsyId req.id then Except.error (400, "Row ID is required for updates.")
  else
    let set_clauses :=
      (req.data.filter fun kv => kv.1 ≠ "id").map fun kv => kv.1 ++ " = " ++ format_value kv.2
    if set_clauses.isEmpty then Except.ok (Option.none, "No data to update.")
    else
      Except.ok (some ("UPDATE " ++ req.table_name ++ " SET " ++
        String.intercalate ", " set_clauses ++ " WHERE id = " ++ idText req.id ++ ";"),
        "Row updated.")

example : format_value (PyVal.str "21/12/1999") = "'1999-12-21'" := by decide

example : format_value (PyVal.str " a ") = "'a'" := by decide

example : format_value (PyVal.dict [("k", PyVal.str "it's")]) = "'\x7b\"k\": \"it''s\"\x7d'" := by
  decide

example : format_value PyVal.none = "NULL" := by decide

example : format_value (PyVal.str "31/02/2001") = "'31/02/2001'" := by decide

example : format_value (PyVal.str "29/02/2000") = "'2000-02-29'" := by decide

example : format_value (PyVal.str "29/02/1900") = "'29/02/1900'" := by decide

example :
    create_table_sql ⟨"users", [⟨"uid", "INTEGER", true, false, Option.none⟩,
      ⟨"name", "TEXT", false, false, Option.none⟩]⟩ =
      "CREATE TABLE users (uid SERIAL PRIMARY KEY, name TEXT);" := by rfl

example : create_table_sql ⟨"t", []⟩ = "CREATE TABLE t (id SERIAL PRIMARY KEY);" := by rfl

example :
    create_table_sql ⟨"t", [⟨"k", "TEXT", true, false, Option.none⟩]⟩ =
      "CREATE TABLE t (k TEXT PRIMARY KEY);" := by rfl

example :
    insert_row ⟨"t", [("a", PyVal.str ""), ("b", PyVal.none), ("c", PyVal.int 5)], Option.none⟩ =
      Except.ok "INSERT INTO t (c) VALUES ('5');" := by rfl

example :
    insert_row ⟨"t", [("a", PyVal.str ""), ("b", PyVal.none)], Option.none⟩ =
      Except.error (400, "No data provided") := by rfl

example :
    update_row ⟨"t", [("a", PyVal.int 1)], some 7⟩ =
      Except.ok (some "UPDATE t SET a = '1' WHERE id = 7;", "Row updated.") := by rfl

example :
    update_row ⟨"t", [("id", PyVal.int 3)], some 7⟩ =
      Except.ok (Option.none, "No data to update.") := by rfl

example :
    update_row ⟨"t", [("a", PyVal.int 1)], some 0⟩ =
      Except.error (400, "Row ID is required for updates.") := by rfl

/-! ### Quote escaping and literal decoding -/

/-- Unfolding: collapsing a body that starts with a doubled quote. -/
theorem collapseQuotesL_cons_quote (rest : List Char) :
    collapseQuotesL ('\'' :: '\'' :: rest) = (collapseQuotesL rest).map fun l => '\'' :: l := by
  rw [collapseQuotesL.eq_def]
  simp

/-- Unfolding: collapsing a body that starts with an ordinary character. -/
theorem collapseQuotesL_cons_ne (c : Char) (rest : List Char) (hc : ¬c = '\'') :
    collapseQuotesL (c :: rest) = (collapseQuotesL rest).map fun l => c :: l := by
  rw [collapseQuotesL.eq_def]
  simp [hc]

/-- Collapsing quotes undoes the doubling: the escape step is injective and
lossless on the literal body. -/
theorem collapseQuotesL_escapeQuotesL (l : List Char) :
    collapseQuotesL (escapeQuotesL l) = some l := by
  induction l with
  | nil => rfl
  | cons c rest ih =>
      by_cases hc : c = '\''
      · subst hc
        simp [escapeQuotesL, collapseQuotesL_cons_quote, ih]
      · simp [escapeQuotesL, collapseQuotesL_cons_ne c _ hc, hc, ih]

/-- `escapeQuotesL` never changes emptiness. -/
theorem escapeQuotesL_eq_nil_iff (l : List Char) : escapeQuotesL l = [] ↔ l = [] := by
  cases l with
  | nil => simp [escapeQuotesL]
  | cons c rest =>
      constructor
      · intro h
        by_cases hc : c = '\'' <;> simp [escapeQuotesL, hc] at h
      · intro h
        exact absurd h (by simp)

/-- Decoding inverts quote-escape-and-wrap: `decodeLiteral ('esc(s)') = s`. -/
theorem decodeLiteral_escape (s : String) :
    decodeLiteral ("'" ++ escapeQuotes s ++ "'") = some s := by
  have hdata : ("'" ++ escapeQuotes s ++ "'").data =
      '\'' :: (escapeQuotesL s.data ++ ['\'']) := by
    simp [escapeQuotes, String.data_append]
  unfold decodeLiteral
  rw [hdata]
  simp [List.getLast?_concat, List.dropLast_concat, collapseQuotesL_escapeQuotesL]

/-! ### Stripping lemmas -/

/-- `dropWhile` leaves a list whose head no longer satisfies the predicate. -/
theorem head?_dropWhile_false (p : α → Bool) (l : List α) :
    ∀ c ∈ (l.dropWhile p).head?, p c = false := by
  intro c hc
  have := List.head?_dropWhile_not p l
  cases h : (l.dropWhile p).head? with
  | none => simp [h] at hc
  | some x =>
      rw [h] at this hc
      simp only [Option.mem_def, Option.some.injEq] at hc
      subst hc
      exact this

/-- A list whose head fails the predicate is untouched by `dropWhile`. -/
theorem dropWhile_eq_self_of_head (p : α → Bool) (l : List α)
    (h : ∀ c ∈ l.head?, p c = false) : l.dropWhile p = l := by
  cases l with
  | nil => rfl
  | cons c rest =>
      have : p c = false := h c (by simp)
      simp [List.dropWhile_cons, this]

/-- `dropWhile` is idempotent. -/
theorem dropWhile_idem (p : α → Bool) (l : List α) :
    (l.dropWhile p).dropWhile p = l.dropWhile p :=
  dropWhile_eq_self_of_head p _ (head?_dropWhile_false p l)

/-- Dropping from the front never invents a new head: the result is a suffix,
so the original list splits around it. -/
theorem exists_append_dropWhile (p : α → Bool) (l : List α) :
    ∃ t, l = t ++ l.dropWhile p := by
  obtain ⟨t, ht⟩ := List.dropWhile_suffix (l := l) p
  exact ⟨t, ht.symm⟩

/-- `stripList` output is untouched by a further leading `dropWhile`. -/
theorem dropWhile_stripList (l : List Char) :
    (stripList l).dropWhile pyIsSpace = stripList l := by
  apply dropWhile_eq_self_of_head
  intro c hc
  set l1 := l.dropWhile pyIsSpace with hl1
  obtain ⟨t, ht⟩ := exists_append_dropWhile pyIsSpace l1.reverse
  have hpref : l1 = (l1.reverse.dropWhile pyIsSpace).reverse ++ t.reverse := by
    calc l1 = l1.reverse.reverse := by simp
    _ = (t ++ l1.reverse.dropWhile pyIsSpace).reverse := by rw [← ht]
    _ = (l1.reverse.dropWhile pyIsSpace).reverse ++ t.reverse := by
          rw [List.reverse_append]
  have hhead : (stripList l).head? = some c := hc
  have hne : stripList l ≠ [] := by
    intro hnil
    rw [hnil] at hhead
    simp at hhead
  have hstrip : stripList l = (l1.reverse.dropWhile pyIsSpace).reverse := rfl
  have hl1head : l1.head? = some c := by
    rw [hpref, List.head?_append, ← hstrip, hhead]
    rfl
  exact head?_dropWhile_false pyIsSpace l c hl1head

/-- Stripping is idempotent, as Python's `str.strip` is. -/
theorem stripList_idem (l : List Char) : stripList (stripList l) = stripList l := by
  have h1 : (stripList l).dropWhile pyIsSpace = stripList l := dropWhile_stripList l
  show (((stripList l).dropWhile pyIsSpace).reverse.dropWhile pyIsSpace).reverse = stripList l
  rw [h1]
  have : (stripList l).reverse = l.reverse.dropWhile pyIsSpace ∨
      (stripList l).reverse = (l.dropWhile pyIsSpace).reverse.dropWhile pyIsSpace := by
    right
    simp [stripList]
  rw [show (stripList l).reverse = (l.dropWhile pyIsSpace).reverse.dropWhile pyIsSpace by
    simp [stripList]]
  rw [dropWhile_idem]
  rfl

/-- `pyStrip` is idempotent. -/
theorem pyStrip_idem (s : String) : pyStrip (pyStrip s) = pyStrip s := by
  simp [pyStrip, stripList_idem]

/-- A string whose first and last characters are not whitespace is its own
strip. -/
theorem stripList_eq_self (l : List Char)
    (h1 : ∀ c ∈ l.head?, pyIsSpace c = false)
    (h2 : ∀ c ∈ l.getLast?, pyIsSpace c = false) : stripList l = l := by
  unfold stripList
  rw [dropWhile_eq_self_of_head pyIsSpace l h1]
  rw [dropWhile_eq_self_of_head pyIsSpace l.reverse (by simpa using h2)]
  simp

/-! ### strptime soundness: a successful match consumes only digits and slashes -/

/-- A character between `'0'` and `'9'` is a decimal digit. -/
theorem isDigit_of_le_le {c : Char} (h1 : '0' ≤ c) (h2 : c ≤ '9') : c.isDigit = true := by
  have e0 : ('0' : Char).val = 48 := by decide
  have e9 : ('9' : Char).val = 57 := by decide
  have v1 : (48 : UInt32) ≤ c.val := e0 ▸ Char.le_def.mp h1
  have v2 : c.val ≤ 57 := e9 ▸ Char.le_def.mp h2
  simp [Char.isDigit, decide_eq_true_eq]
  exact ⟨v1, v2⟩

/-- A character between `'1'` and `'9'` is a decimal digit. -/
theorem isDigit_of_one_le {c : Char} (h1 : '1' ≤ c) (h2 : c ≤ '9') : c.isDigit = true :=
  isDigit_of_le_le (le_trans (by decide) h1) h2

/-- Every day-field alternative consumes only decimal digits. -/
theorem parseDay_split {cs r : List Char} {d : Nat} (h : (d, r) ∈ parseDay cs) :
    ∃ pre, cs = pre ++ r ∧ ∀ c ∈ pre, c.isDigit = true := by
  match cs, h with
  | [c1], h =>
      simp only [parseDay] at h
      split_ifs at h with hcond <;>
        simp only [List.mem_singleton, List.not_mem_nil, Prod.mk.injEq] at h
      refine ⟨[c1], by simp [h.2], ?_⟩
      intro c hc
      simp only [List.mem_singleton] at hc
      subst hc
      exact isDigit_of_one_le hcond.1 hcond.2
  | c1 :: c2 :: rest, h =>
      simp only [parseDay, List.mem_append] at h
      rcases h with ((h | h) | h) | h <;> split_ifs at h with hcond <;>
        simp only [List.mem_singleton, List.not_mem_nil, Prod.mk.injEq] at h
      · refine ⟨[c1, c2], by simp [h.2], ?_⟩
        intro c hc
        simp only [List.mem_cons, List.mem_singleton, List.not_mem_nil, or_false] at hc
        rcases hc with rfl | rfl
        · rcases hcond with ⟨rfl, -⟩; decide
        · rcases hcond.2 with rfl | rfl <;> decide
      · refine ⟨[c1, c2], by simp [h.2], ?_⟩
        intro c hc
        simp only [List.mem_cons, List.mem_singleton, List.not_mem_nil, or_false] at hc
        rcases hc with rfl | rfl
        · rcases hcond.1 with rfl | rfl <;> decide
        · exact hcond.2
      · refine ⟨[c1, c2], by simp [h.2], ?_⟩
        intro c hc
        simp only [List.mem_cons, List.mem_singleton, List.not_mem_nil, or_false] at hc
        rcases hc with rfl | rfl
        · rcases hcond with ⟨rfl, -⟩; decide
        · exact isDigit_of_one_le hcond.2.1 hcond.2.2
      · refine ⟨[c1], by simp [h.2], ?_⟩
        intro c hc
        simp only [List.mem_singleton] at hc
        subst hc
        exact isDigit_of_one_le hcond.1 hcond.2

/-- Every month-field alternative consumes only decimal digits. -/
theorem parseMonth_split {cs r : List Char} {m : Nat} (h : (m, r) ∈ parseMonth cs) :
    ∃ pre, cs = pre ++ r ∧ ∀ c ∈ pre, c.isDigit = true := by
  match cs, h with
  | [c1], h =>
      simp only [parseMonth] at h
      split_ifs at h with hcond <;>
        simp only [List.mem_singleton, List.not_mem_nil, Prod.mk.injEq] at h
      refine ⟨[c1], by simp [h.2], ?_⟩
      intro c hc
      simp only [List.mem_singleton] at hc
      subst hc
      exact isDigit_of_one_le hcond.1 hcond.2
  | c1 :: c2 :: rest, h =>
      simp only [parseMonth, List.mem_append] at h
      rcases h with (h | h) | h <;> split_ifs at h with hcond <;>
        simp only [List.mem_singleton, List.not_mem_nil, Prod.mk.injEq] at h
      · refine ⟨[c1, c2], by simp [h.2], ?_⟩
        intro c hc
        simp only [List.mem_cons, List.mem_singleton, List.not_mem_nil, or_false] at hc
        rcases hc with rfl | rfl
        · rcases hcond with ⟨rfl, -⟩; decide
        · rcases hcond.2 with rfl | rfl | rfl <;> decide
      · refine ⟨[c1, c2], by simp [h.2], ?_⟩
        intro c hc
        simp only [List.mem_cons, List.mem_singleton, List.not_mem_nil, or_false] at hc
        rcases hc with rfl | rfl
        · rcases hcond with ⟨rfl, -⟩; decide
        · exact isDigit_of_one_le hcond.2.1 hcond.2.2
      · refine ⟨[c1], by simp [h.2], ?_⟩
        intro c hc
        simp only [List.mem_singleton] at hc
        subst hc
        exact isDigit_of_one_le hcond.1 hcond.2

/-- The year field consumes exactly four decimal digits. -/
theorem parseYear_split {cs r : List Char} {y : Nat} (h : parseYear cs = some (y, r)) :
    ∃ pre, cs = pre ++ r ∧ ∀ c ∈ pre, c.isDigit = true := by
  unfold parseYear at h
  split at h
  · split_ifs at h with hcond
    rename_i a b c d rest
    simp only [Option.some.injEq, Prod.mk.injEq] at h
    refine ⟨[a, b, c, d], by simp [h.2], ?_⟩
    intro x hx
    simp only [List.mem_cons, List.mem_singleton, List.not_mem_nil, or_false] at hx
    rcases hx with rfl | rfl | rfl | rfl
    · exact hcond.1
    · exact hcond.2.1
    · exact hcond.2.2.1
    · exact hcond.2.2.2
  · exact absurd h (by simp)

/-- A successful `%d/%m/%Y` regex match covers only digits and slashes. -/
theorem strptimeCore_split {cs : List Char} {d m y : Nat} {rest : List Char}
    (h : strptimeCore cs = some (d, m, y, rest)) :
    ∃ pre, cs = pre ++ rest ∧ ∀ c ∈ pre, (c.isDigit = true ∨ c = '/') := by
  unfold strptimeCore at h
  obtain ⟨dm, hdm, h2⟩ := List.exists_of_findSome?_eq_some h
  split at h2
  case h_2 => exact absurd h2 (by simp)
  case h_1 r2 hr2 =>
    obtain ⟨mm, hmm, h3⟩ := List.exists_of_findSome?_eq_some h2
    split at h3
    case h_2 => exact absurd h3 (by simp)
    case h_1 r4 hr4 =>
      split at h3
      case h_2 => exact absurd h3 (by simp)
      case h_1 y' r5 hy =>
        simp only [Option.some.injEq, Prod.mk.injEq] at h3
        obtain ⟨-, -, hy', hr5⟩ := h3
        obtain ⟨pre1, hcs, hdig1⟩ := parseDay_split (by
          have : dm = (dm.1, dm.2) := rfl
          rw [this] at hdm
          exact hdm)
        obtain ⟨pre2, hrr2, hdig2⟩ := parseMonth_split (by
          have : mm = (mm.1, mm.2) := rfl
          rw [this] at hmm
          exact hmm)
        subst hy'
        obtain ⟨pre3, hrr4, hdig3⟩ := parseYear_split hy
        refine ⟨pre1 ++ '/' :: pre2 ++ '/' :: pre3, ?_, ?_⟩
        · rw [hcs, hr2, hrr2, hr4, hrr4, hr5]
          simp
        · intro c hc
          rcases List.mem_append.mp hc with hc | hc
          · rcases List.mem_append.mp hc with hc | hc
            · exact Or.inl (hdig1 c hc)
            · rcases List.mem_cons.mp hc with rfl | hc
              · exact Or.inr rfl
              · exact Or.inl (hdig2 c hc)
          · rcases List.mem_cons.mp hc with rfl | hc
            · exact Or.inr rfl
            · exact Or.inl (hdig3 c hc)

/-- A string accepted by the date heuristic consists only of digits and
slashes. -/
theorem strptimeDMY_chars {s : String} {d m y : Nat}
    (h : strptimeDMY s = some (d, m, y)) :
    ∀ c ∈ s.data, c.isDigit = true ∨ c = '/' := by
  unfold strptimeDMY at h
  split at h
  case h_2 => exact absurd h (by simp)
  case h_1 d' m' y' rest heq =>
    split_ifs at h with hcond
    obtain ⟨hrest, -, -⟩ := hcond
    subst hrest
    obtain ⟨pre, hpre, hdig⟩ := strptimeCore_split heq
    intro c hc
    rw [hpre] at hc
    simp only [List.append_nil] at hc
    exact hdig c hc

/-- Any character that is neither a digit nor a slash defeats the date
parse. -/
theorem strptimeDMY_eq_none_of_bad {s : String} {c : Char} (hc : c ∈ s.data)
    (hd : c.isDigit = false) (hs : ¬c = '/') : strptimeDMY s = Option.none := by
  cases h : strptimeDMY s with
  | none => rfl
  | some t =>
      obtain ⟨d, m, y⟩ := t
      rcases strptimeDMY_chars h c hc with h1 | h1
      · rw [hd] at h1
        exact absurd h1 (by simp)
      · exact absurd h1 hs

/-! ### Unfolding lemmas for `format_value` -/

/-- A nonempty string is not nullish. -/
theorem isNullish_str_false {s : String} (h : s ≠ "") : isNullish (PyVal.str s) = false := by
  simp [isNullish, h]

/-- `format_value` on the successful date path. -/
theorem format_value_of_date {v : PyVal} {d m y : Nat} (h0 : isNullish v = false)
    (hc : '/' ∈ (textualForm v).data)
    (hl : (textualForm v).length = 10)
    (hp : strptimeDMY (textualForm v) = some (d, m, y)) :
    format_value v = "'" ++ strftimeYMD y m d ++ "'" := by
  unfold format_value
  simp [h0, hc, hl, hp]

/-- `format_value` on the generic string path: the date heuristic is skipped
or its parse fails. -/
theorem format_value_generic {v : PyVal} (h0 : isNullish v = false)
    (hfail : ¬('/' ∈ (textualForm v).data ∧ (textualForm v).length = 10) ∨
      strptimeDMY (textualForm v) = Option.none) :
    format_value v = "'" ++ escapeQuotes (textualForm v) ++ "'" := by
  unfold format_value
  by_cases hg : '/' ∈ (textualForm v).data ∧ (textualForm v).length = 10
  · have hnone : strptimeDMY (textualForm v) = Option.none := by
      rcases hfail with hf | hf
      · exact absurd hg hf
      · exact hf
    simp [h0, hg.1, hg.2, hnone]
  · simp only [h0, Bool.false_eq_true, if_false]
    simp [h0]
    intro hmem hlen
    exact absurd ⟨hmem, hlen⟩ hg

/-- `json.dumps` output of a list or dict starts with its opening bracket and
ends with its closing bracket, so stripping leaves it unchanged. -/
theorem stripList_jsonDumpsL_structured (v : PyVal)
    (hv : (∃ items, v = PyVal.list items) ∨ (∃ entries, v = PyVal.dict entries)) :
    stripList (jsonDumpsL v) = jsonDumpsL v := by
  rcases hv with ⟨items, rfl⟩ | ⟨entries, rfl⟩
  · rw [show jsonDumpsL (PyVal.list items) = '[' :: (jsonItemsL items ++ [']']) by
      simp [jsonDumpsL]]
    apply stripList_eq_self
    · intro c hc
      simp only [List.head?_cons, Option.mem_def, Option.some.injEq] at hc
      subst hc
      decide
    · intro c hc
      rw [show ('[' :: (jsonItemsL items ++ [']'])) = ('[' :: jsonItemsL items) ++ [']'] by
        simp] at hc
      rw [List.getLast?_concat] at hc
      simp only [Option.mem_def, Option.some.injEq] at hc
      subst hc
      decide
  · rw [show jsonDumpsL (PyVal.dict entries) = '{' :: (jsonEntriesL entries ++ ['}']) by
      simp [jsonDumpsL]]
    apply stripList_eq_self
    · intro c hc
      simp only [List.head?_cons, Option.mem_def, Option.some.injEq] at hc
      subst hc
      decide
    · intro c hc
      rw [show ('{' :: (jsonEntriesL entries ++ ['}'])) = ('{' :: jsonEntriesL entries) ++ ['}'] by
        simp] at hc
      rw [List.getLast?_concat] at hc
      simp only [Option.mem_def, Option.some.injEq] at hc
      subst hc
      decide

/-- The textual form of a structured value is its `json.dumps` text
(stripping changes nothing). -/
theorem textualForm_structured (v : PyVal)
    (hv : (∃ items, v = PyVal.list items) ∨ (∃ entries, v = PyVal.dict entries)) :
    textualForm v = jsonDumps v := by
  have hs : stripList (jsonDumpsL v) = jsonDumpsL v := stripList_jsonDumpsL_structured v hv
  rcases hv with ⟨items, rfl⟩ | ⟨entries, rfl⟩ <;>
    simp [textualForm, pyToText, pyStrip, jsonDumps, stripList_jsonDumpsL_structured, hs]

/-- The date parse always fails on `json.dumps` output of a structured value:
the text opens with a bracket, which is neither a digit nor a slash. -/
theorem strptimeDMY_jsonDumps_structured (v : PyVal)
    (hv : (∃ items, v = PyVal.list items) ∨ (∃ entries, v = PyVal.dict entries)) :
    strptimeDMY (jsonDumps v) = Option.none := by
  rcases hv with ⟨items, rfl⟩ | ⟨entries, rfl⟩
  · refine strptimeDMY_eq_none_of_bad (c := '[') ?_ (by decide) (by decide)
    rw [show (jsonDumps (PyVal.list items)).data = '[' :: (jsonItemsL items ++ [']']) by
      simp [jsonDumps, jsonDumpsL]]
    simp
  · refine strptimeDMY_eq_none_of_bad (c := '{') ?_ (by decide) (by decide)
    rw [show (jsonDumps (PyVal.dict entries)).data = '{' :: (jsonEntriesL entries ++ ['}']) by
      simp [jsonDumps, jsonDumpsL]]
    simp

/-- `format_value` depends only on nullishness and the textual form. -/
theorem format_value_congr {v w : PyVal} (h0 : isNullish v = false)
    (h0' : isNullish w = false) (ht : textualForm v = textualForm w) :
    format_value v = format_value w := by
  unfold format_value
  rw [h0, h0', ht]

/-! ### Claims -/

/-- Claim C1, counterexample: the string `" ' "` contains a single quote, but
`format_value` strips the surrounding whitespace first, so the produced
literal `''''` decodes to `'`, not to the original string — the claimed
round-trip fails for quote-containing strings with outer whitespace. -/
theorem C1_counterexample :
    '\'' ∈ (" ' " : String).data ∧
      format_value (PyVal.str " ' ") = "''''" ∧
      decodeLiteral (format_value (PyVal.str " ' ")) = some "'" ∧
      (" ' " : String) ≠ "'" :=
  ⟨by decide, by decide, by decide, by decide⟩

/-- Claim C1, amended: for every string `s` containing a single quote and
equal to its own strip (no leading or trailing whitespace), `format_value`
returns the single-quoted literal obtained by doubling every single quote of
`s`, and decoding that literal (un-quoting and collapsing doubled quotes)
yields exactly `s`. -/
theorem C1_quote_roundtrip (s : String) (hstrip : pyStrip s = s)
    (hq : '\'' ∈ s.data) :
    format_value (PyVal.str s) = "'" ++ escapeQuotes s ++ "'" ∧
      decodeLiteral (format_value (PyVal.str s)) = some s := by
  have hne : s ≠ "" := fun h => absurd (h ▸ hq) (by decide)
  have h0 : isNullish (PyVal.str s) = false := isNullish_str_false hne
  have htf : textualForm (PyVal.str s) = s := by
    simp [textualForm, pyToText, hstrip]
  have hgen : format_value (PyVal.str s) = "'" ++ escapeQuotes s ++ "'" := by
    by_cases hg : '/' ∈ (textualForm (PyVal.str s)).data ∧
        (textualForm (PyVal.str s)).length = 10
    · have hnone : strptimeDMY (textualForm (PyVal.str s)) = Option.none := by
        rw [htf]
        exact strptimeDMY_eq_none_of_bad hq (by decide) (by decide)
      have h := format_value_generic h0 (Or.inr hnone)
      rw [htf] at h
      exact h
    · have h := format_value_generic h0 (Or.inl hg)
      rw [htf] at h
      exact h
  exact ⟨hgen, by rw [hgen]; exact decodeLiteral_escape s⟩

/-- Claim C1, witness at `s = "a'b"`. -/
theorem C1_quote_roundtrip_witness :
    pyStrip "a'b" = "a'b" ∧ '\'' ∈ ("a'b" : String).data ∧
      format_value (PyVal.str "a'b") = "'" ++ escapeQuotes "a'b" ++ "'" ∧
      decodeLiteral (format_value (PyVal.str "a'b")) = some "a'b" :=
  ⟨by decide, by decide, (C1_quote_roundtrip "a'b" (by decide) (by decide)).1,
   (C1_quote_roundtrip "a'b" (by decide) (by decide)).2⟩

/-- Claim C7: `format_value` maps both `None` and the empty string to the
unquoted literal `NULL`. -/
theorem C7_none_and_empty_are_NULL :
    format_value PyVal.none = "NULL" ∧ format_value (PyVal.str "") = "NULL" :=
  ⟨rfl, rfl⟩

/-- Claim C8: an update request with no `id` fails with 400
`Row ID is required for updates.` before any SQL is built (the error return
carries no statement). -/
theorem C8_update_missing_id (t : String) (data : List (String × PyVal)) :
    update_row ⟨t, data, Option.none⟩ =
      Except.error (400, "Row ID is required for updates.") := rfl

/-- Claim C9: an update request with `id = 0` fails exactly like one with the
id absent, because the guard tests Python falsiness of the id. -/
theorem C9_update_id_zero (t : String) (data : List (String × PyVal)) :
    update_row ⟨t, data, some 0⟩ =
        Except.error (400, "Row ID is required for updates.") ∧
      update_row ⟨t, data, some 0⟩ = update_row ⟨t, data, Option.none⟩ :=
  ⟨rfl, rfl⟩

/-- Claim C10: for every string whose strip is nonempty, `format_value`
behaves as on the pre-stripped string — whitespace is removed before the date
check and the quoting — and in particular `" a "` becomes `'a'`, not
`' a '`. -/
theorem C10_strips_whitespace (s : String) (h : pyStrip s ≠ "") :
    format_value (PyVal.str s) = format_value (PyVal.str (pyStrip s)) ∧
      format_value (PyVal.str " a ") = "'a'" ∧
      format_value (PyVal.str " a ") ≠ "' a '" := by
  refine ⟨?_, by decide, by decide⟩
  have hne : s ≠ "" := by
    intro hh
    apply h
    rw [hh]
    decide
  apply format_value_congr (isNullish_str_false hne) (isNullish_str_false h)
  show pyStrip (pyToText (PyVal.str s)) = pyStrip (pyToText (PyVal.str (pyStrip s)))
  show pyStrip s = pyStrip (pyStrip s)
  rw [pyStrip_idem]

/-- Claim C10, witness at `s = " a "`. -/
theorem C10_strips_whitespace_witness :
    pyStrip " a " ≠ "" ∧
      format_value (PyVal.str " a ") = format_value (PyVal.str (pyStrip " a ")) :=
  ⟨by decide, (C10_strips_whitespace " a " (by decide)).1⟩

/-- `isNullish` holds exactly for `None` and the empty string. -/
theorem isNullish_iff (v : PyVal) :
    isNullish v = true ↔ (v = PyVal.none ∨ v = PyVal.str "") := by
  cases v <;> simp [isNullish]

/-- Claim C5: for every non-nullish value whose textual form contains `/` and
is exactly 10 characters long, a successful `DD/MM/YYYY` parse makes
`format_value` return the re-formatted quoted literal `'YYYY-MM-DD'`, and a
failed parse falls through to generic string handling; in particular
`format_value "21/12/1999" = "'1999-12-21'"`. -/
theorem C5_date_heuristic (v : PyVal) (h0 : isNullish v = false)
    (hc : '/' ∈ (textualForm v).data) (hl : (textualForm v).length = 10) :
    (∀ d m y, strptimeDMY (textualForm v) = some (d, m, y) →
        format_value v = "'" ++ strftimeYMD y m d ++ "'") ∧
      (strptimeDMY (textualForm v) = Option.none →
        format_value v = "'" ++ escapeQuotes (textualForm v) ++ "'") ∧
      format_value (PyVal.str "21/12/1999") = "'1999-12-21'" :=
  ⟨fun _ _ _ hp => format_value_of_date h0 hc hl hp,
   fun hn => format_value_generic h0 (Or.inr hn), by decide⟩

/-- Claim C5, witness at `"21/12/1999"`. -/
theorem C5_date_heuristic_witness :
    isNullish (PyVal.str "21/12/1999") = false ∧
      '/' ∈ (textualForm (PyVal.str "21/12/1999")).data ∧
      (textualForm (PyVal.str "21/12/1999")).length = 10 ∧
      strptimeDMY (textualForm (PyVal.str "21/12/1999")) = some (21, 12, 1999) ∧
      format_value (PyVal.str "21/12/1999") = "'" ++ strftimeYMD 1999 12 21 ++ "'" :=
  ⟨by decide, by decide, by decide, by decide,
   (C5_date_heuristic (PyVal.str "21/12/1999") (by decide) (by decide) (by decide)).1
     21 12 1999 (by decide)⟩

/-- Claim C6: a dict or list value is serialized by `json.dumps` (double
quoted keys and strings) and the resulting text is then treated as an
ordinary string: single quotes doubled and the whole wrapped in single quotes
(the date heuristic never fires on bracketed JSON text). -/
theorem C6_structured_values_json (v : PyVal)
    (hv : (∃ items, v = PyVal.list items) ∨ (∃ entries, v = PyVal.dict entries)) :
    format_value v = "'" ++ escapeQuotes (jsonDumps v) ++ "'" := by
  have h0 : isNullish v = false := by
    rcases hv with ⟨items, rfl⟩ | ⟨entries, rfl⟩ <;> rfl
  have htf : textualForm v = jsonDumps v := textualForm_structured v hv
  have hnone : strptimeDMY (textualForm v) = Option.none := by
    rw [htf]
    exact strptimeDMY_jsonDumps_structured v hv
  have h := format_value_generic h0 (Or.inr hnone)
  rw [htf] at h
  exact h

/-- Claim C6, witness at the dict `{"k": "it's"}`. -/
theorem C6_structured_values_json_witness :
    format_value (PyVal.dict [("k", PyVal.str "it's")]) =
        "'" ++ escapeQuotes (jsonDumps (PyVal.dict [("k", PyVal.str "it's")])) ++ "'" ∧
      format_value (PyVal.dict [("k", PyVal.str "it's")]) = "'\x7b\"k\": \"it''s\"\x7d'" :=
  ⟨C6_structured_values_json _ (Or.inr ⟨_, rfl⟩), by decide⟩

/-- Claim C2: the built CREATE TABLE statement declares exactly the column
`id SERIAL PRIMARY KEY` when the request's column list is empty; otherwise
each column is emitted as `name type`, except that a primary column whose
upper-cased type contains `INT` becomes `name SERIAL PRIMARY KEY` and any
other primary column gets a ` PRIMARY KEY` suffix; definitions are joined
with `, ` inside `CREATE TABLE t (...)`. -/
theorem C2_create_table_shape (req : CreateTableRequest) :
    (req.columns = [] →
        create_table_sql req =
          "CREATE TABLE " ++ req.table_name ++ " (id SERIAL PRIMARY KEY);") ∧
      (req.columns ≠ [] →
        create_table_sql req =
          "CREATE TABLE " ++ req.table_name ++ " (" ++
            String.intercalate ", " (req.columns.map fun col =>
              if col.isPrimary then
                if pyInStr "INT" (pyUpper col.type) then col.name ++ " SERIAL PRIMARY KEY"
                else col.name ++ " " ++ col.type ++ " PRIMARY KEY"
              else col.name ++ " " ++ col.type) ++ ");") := by
  constructor
  · intro h
    simp only [create_table_sql, h, List.isEmpty_nil, if_true]
    apply String.ext
    simp only [String.data_append, List.append_assoc]
    congr 2
  · intro h
    have hne : req.columns.isEmpty = false := by simpa using h
    have hfun : columnDefText = fun col : ColumnDef =>
        if col.isPrimary then
          if pyInStr "INT" (pyUpper col.type) then col.name ++ " SERIAL PRIMARY KEY"
          else col.name ++ " " ++ col.type ++ " PRIMARY KEY"
        else col.name ++ " " ++ col.type := by
      funext col
      simp [columnDefText]
    simp [create_table_sql, hne, hfun]

/-- Claim C2, witness: both the empty-column and the populated case. -/
theorem C2_create_table_shape_witness :
    create_table_sql ⟨"t", []⟩ = "CREATE TABLE t (id SERIAL PRIMARY KEY);" ∧
      create_table_sql ⟨"users", [⟨"uid", "INTEGER", true, false, Option.none⟩,
          ⟨"name", "TEXT", false, false, Option.none⟩]⟩ =
        "CREATE TABLE users (uid SERIAL PRIMARY KEY, name TEXT);" := by
  constructor
  · exact (C2_create_table_shape ⟨"t", []⟩).1 rfl
  · have h := (C2_create_table_shape ⟨"users", [⟨"uid", "INTEGER", true, false, Option.none⟩,
      ⟨"name", "TEXT", false, false, Option.none⟩]⟩).2 (by simp)
    rw [h]
    rfl

/-- Claim C3: inserting first drops every entry whose value is null or the
empty string; if nothing survives, the handler fails with 400
`No data provided` and no SQL; otherwise the INSERT statement is built over
exactly the surviving entries, in order. -/
theorem C3_insert_filtering (t : String) (data : List (String × PyVal)) (i : Option Int) :
    (∀ kv : String × PyVal, kv ∈ data.filter (fun kv => !(isNullish kv.2)) ↔
        (kv ∈ data ∧ ¬(kv.2 = PyVal.none ∨ kv.2 = PyVal.str ""))) ∧
      (data.filter (fun kv => !(isNullish kv.2)) = [] →
        insert_row ⟨t, data, i⟩ = Except.error (400, "No data provided")) ∧
      (data.filter (fun kv => !(isNullish kv.2)) ≠ [] →
        insert_row ⟨t, data, i⟩ = Except.ok ("INSERT INTO " ++ t ++ " (" ++
          String.intercalate ", "
            ((data.filter (fun kv => !(isNullish kv.2))).map Prod.fst) ++
          ") VALUES (" ++
          String.intercalate ", "
            ((data.filter (fun kv => !(isNullish kv.2))).map fun kv => format_value kv.2) ++
          ");")) := by
  refine ⟨?_, ?_, ?_⟩
  · intro kv
    rw [List.mem_filter]
    have hb : (!(isNullish kv.2)) = true ↔
        ¬(kv.2 = PyVal.none ∨ kv.2 = PyVal.str "") := by
      cases hkv : isNullish kv.2
      · simp only [Bool.not_false, true_iff]
        intro hbad
        have ht := (isNullish_iff kv.2).mpr hbad
        rw [hkv] at ht
        exact absurd ht (by simp)
      · simp only [Bool.not_true, Bool.false_eq_true, false_iff, not_not]
        exact (isNullish_iff kv.2).mp hkv
    rw [hb]
  · intro h
    simp [insert_row, h]
  · intro h
    have hne : (data.filter (fun kv => !(isNullish kv.2))).isEmpty = false := by simpa using h
    simp [insert_row, hne]

/-- Claim C3, witness: the spec's own example `{"a": "", "b": null, "c": 5}`
keeps only `c`, and an all-filtered payload 400s. -/
theorem C3_insert_filtering_witness :
    insert_row ⟨"t", [("a", PyVal.str ""), ("b", PyVal.none), ("c", PyVal.int 5)],
        Option.none⟩ = Except.ok "INSERT INTO t (c) VALUES ('5');" ∧
      insert_row ⟨"t", [("a", PyVal.str "")], Option.none⟩ =
        Except.error (400, "No data provided") := by
  constructor
  · have h := (C3_insert_filtering "t"
      [("a", PyVal.str ""), ("b", PyVal.none), ("c", PyVal.int 5)] Option.none).2.2
      (by intro hh; exact List.noConfusion hh)
    rw [h]
    rfl
  · exact (C3_insert_filtering "t" [("a", PyVal.str "")] Option.none).2.1 rfl

/-- Claim C4, counterexample: the identifier is present (`id = 0`) and the
data holds an updatable column, yet `update_row` answers 400 instead of the
claimed SET/UPDATE behaviour — the guard `if not req.id` tests falsiness, not
absence. -/
theorem C4_counterexample :
    (some 0 : Option Int) ≠ Option.none ∧
      update_row ⟨"t", [("a", PyVal.int 1)], some 0⟩ =
        Except.error (400, "Row ID is required for updates.") :=
  ⟨by decide, rfl⟩

/-- Claim C4, amended: for every update request whose identifier is present
and nonzero, one `SET col = formatted` clause is built per data entry whose
key is not `id`; with no clauses the handler reports success
(`No data to update.`) without SQL, otherwise it runs
`UPDATE t SET ... WHERE id = <identifier>`. -/
theorem C4_update_row_spec (t : String) (data : List (String × PyVal)) (n : Int)
    (hn : n ≠ 0) :
    ((data.filter fun kv => kv.1 ≠ "id") = [] →
        update_row ⟨t, data, some n⟩ = Except.ok (Option.none, "No data to update.")) ∧
      ((data.filter fun kv => kv.1 ≠ "id") ≠ [] →
        update_row ⟨t, data, some n⟩ = Except.ok (some ("UPDATE " ++ t ++ " SET " ++
          String.intercalate ", " ((data.filter fun kv => kv.1 ≠ "id").map fun kv =>
            kv.1 ++ " = " ++ format_value kv.2) ++ " WHERE id = " ++ toString n ++ ";"),
          "Row updated.")) := by
  have hfalsy : falsyId (some n) = false := by simp [falsyId, hn]
  have hstep : update_row ⟨t, data, some n⟩ =
      (if ((data.filter fun kv => kv.1 ≠ "id").map fun kv =>
            kv.1 ++ " = " ++ format_value kv.2).isEmpty then
        Except.ok (Option.none, "No data to update.")
      else Except.ok (some ("UPDATE " ++ t ++ " SET " ++
        String.intercalate ", " ((data.filter fun kv => kv.1 ≠ "id").map fun kv =>
          kv.1 ++ " = " ++ format_value kv.2) ++ " WHERE id = " ++ idText (some n) ++ ";"),
        "Row updated.")) := by
    unfold update_row
    rw [if_neg]
    rw [hfalsy]
    exact Bool.false_ne_true
  constructor
  · intro h
    rw [hstep, if_pos]
    rw [h]
    rfl
  · intro h
    have hset : ((data.filter fun kv => kv.1 ≠ "id").map fun kv =>
        kv.1 ++ " = " ++ format_value kv.2) ≠ [] := by
      intro hh
      exact h (List.map_eq_nil_iff.mp hh)
    rw [hstep, if_neg]
    · rfl
    · simpa using hset

/-- Claim C4, witness at id 7 with one updatable column. -/
theorem C4_update_row_spec_witness :
    (7 : Int) ≠ 0 ∧
      update_row ⟨"t", [("a", PyVal.int 1)], some 7⟩ =
        Except.ok (some "UPDATE t SET a = '1' WHERE id = 7;", "Row updated.") := by
  refine ⟨by decide, ?_⟩
  have h := (C4_update_row_spec "t" [("a", PyVal.int 1)] 7 (by decide)).2
    (by intro hh; exact List.noConfusion hh)
  rw [h]
  rfl

end DBApp
